import Mathlib

/-!
Verification of the CRX container decoder of
`chrome-extension-downloader` (`crx_utils.py`, class
`ChromeWebStoreURLBuilder`).  Byte buffers are modelled as `List Nat`
(each element a byte value); the decoder `crx_to_zip` is modelled as a
function into `Except String (List Nat)`: `Except.ok` carries the ZIP
bytes the Python code writes out, `Except.error` carries the message of
the `ValueError` the Python code raises.  File I/O and the non-fatal
`zipfile` verification (which only prints warnings) are not part of the
byte-level behaviour and are omitted.
-/

/-- Decidable equality of decoder results, so concrete runs of the
model can be checked by `decide`. -/
instance {e a : Type} [DecidableEq e] [DecidableEq a] :
    DecidableEq (Except e a) := fun x y =>
  match x, y with
  | Except.ok u, Except.ok v =>
    if h : u = v then Decidable.isTrue (by rw [h])
    else Decidable.isFalse (fun he => h (Except.ok.inj he))
  | Except.ok _, Except.error _ => Decidable.isFalse (fun he => Except.noConfusion he)
  | Except.error _, Except.ok _ => Decidable.isFalse (fun he => Except.noConfusion he)
  | Except.error m, Except.error n =>
    if h : m = n then Decidable.isTrue (by rw [h])
    else Decidable.isFalse (fun he => h (Except.error.inj he))

/-- The CRX magic `Cr24` as byte values (`C`=67, `r`=114, `2`=50, `4`=52). -/
def cr24 : List Nat := [67, 114, 50, 52]

/-- ZIP local-file signature `PK\x03\x04` (`P`=80, `K`=75). -/
def pkLocal : List Nat := [80, 75, 3, 4]

/-- ZIP end-of-central-directory signature `PK\x05\x06`. -/
def pkCentral : List Nat := [80, 75, 5, 6]

/-- ZIP spanned-archive signature `PK\x07\x08`. -/
def pkSpanned : List Nat := [80, 75, 7, 8]

/-- Model of Python `data.find(sig)` for a non-empty needle: the least
index `p` such that `sig` occurs in `data` starting at `p`, as
`some p`, else `none`. -/
def findSig (sig : List Nat) : List Nat → Option Nat
  | [] => none
  | d :: rest =>
    if sig = (d :: rest).take sig.length then some 0
    else (findSig sig rest).map (fun k => k + 1)

/-- Model of `_find_zip_in_data`: try the three ZIP signatures in order
(`PK\x03\x04`, then `PK\x05\x06`, then `PK\x07\x08`); on the first one
that occurs, return the suffix of `data` from its earliest occurrence. -/
def find_zip_in_data (data : List Nat) : Option (List Nat) :=
  match findSig pkLocal data with
  | some p => some (data.drop p)
  | none =>
    match findSig pkCentral data with
    | some p => some (data.drop p)
    | none =>
      match findSig pkSpanned data with
      | some p => some (data.drop p)
      | none => none

/-- Model of `_find_zip_offset`: offset of the scan result, computed,
as in the Python source, as `len(crx_data) - len(zip_data)`. -/
def find_zip_offset (data : List Nat) : Except String Nat :=
  match find_zip_in_data data with
  | some z => Except.ok (data.length - z.length)
  | none => Except.error "No ZIP signature found in CRX file"

/-- Little-endian 4-byte unsigned integer at offset `off`, as read by
struct.unpack in the source (indices are in range on every path where
the code reads them, after the explicit length checks). -/
def readLE32 (data : List Nat) (off : Nat) : Nat :=
  data.getD off 0 + 256 * data.getD (off + 1) 0 +
    65536 * data.getD (off + 2) 0 + 16777216 * data.getD (off + 3) 0

/-- Model of `_parse_crx2_header`: requires 16 bytes; reads the
public-key and signature lengths at offsets 8 and 12; falls back to the
signature scan when either exceeds 10000; otherwise the payload offset
is `16 + keyLen + sigLen`. -/
def parse_crx2_header (data : List Nat) : Except String Nat :=
  if data.length < 16 then Except.error "CRX2 file too small"
  else if 10000 < readLE32 data 8 ∨ 10000 < readLE32 data 12 then
    find_zip_offset data
  else Except.ok (16 + readLE32 data 8 + readLE32 data 12)

/-- Model of `_parse_crx3_header`: requires 12 bytes; reads the header
length at offset 8; falls back to the signature scan when it exceeds
10000; otherwise the payload offset is `12 + headerLen`. -/
def parse_crx3_header (data : List Nat) : Except String Nat :=
  if data.length < 12 then Except.error "CRX3 file too small"
  else if 10000 < readLE32 data 8 then find_zip_offset data
  else Except.ok (12 + readLE32 data 8)

/-- The Python `except` clause wraps every raised message with this
fixed text (`str` of a `ValueError` is its message). -/
def wrapMsg (m : String) : String := "Error converting CRX to ZIP: " ++ m

/-- Result of one `try/except` layer: successes pass through, any
raised error is re-raised wrapped. -/
def wrapResult : Except String (List Nat) → Except String (List Nat)
  | Except.ok r => Except.ok r
  | Except.error m => Except.error (wrapMsg m)

/-- The body of `crx_to_zip` inside its `try` block, with the nested
recursive call abstracted as `rec`.  Mirrors the source line by line:
already-ZIP check, `Cr24` magic check with signature-scan fallback,
version dispatch, header parsing, bounds check, payload slice, and the
version-3 nested-container recursion. -/
def crxBody (rec : List Nat → Except String (List Nat)) (data : List Nat) :
    Except String (List Nat) :=
  if 4 ≤ data.length ∧ data.take 4 = pkLocal then Except.ok data
  else if data.length < 8 ∨ data.take 4 ≠ cr24 then
    match find_zip_in_data data with
    | some z => Except.ok z
    | none => Except.error "Invalid CRX file: Does not start with Cr24"
  else if data.getD 4 0 = 2 ∨ data.getD 4 0 = 3 then
    match (if data.getD 4 0 = 2 then parse_crx2_header data
           else parse_crx3_header data) with
    | Except.error m => Except.error m
    | Except.ok offset =>
      if data.length ≤ offset then
        Except.error "CRX file appears to be corrupted"
      else if data.getD 4 0 = 3 ∧ 4 ≤ (data.drop offset).length ∧
          (data.drop offset).take 4 = cr24 then
        rec (data.drop offset)
      else Except.ok (data.drop offset)
  else
    Except.error ("Unexpected CRX format version: " ++ toString (data.getD 4 0))

/-- Fuelled model of `crx_to_zip`: each level runs the body and wraps
any error, exactly as the `try/except` in the source does; the nested
recursive call sits inside the `try`, so inner errors are wrapped again
at every enclosing level. -/
def crxToZipF : Nat → List Nat → Except String (List Nat)
  | 0, _ => Except.error "recursion limit"
  | fuel + 1, data => wrapResult (crxBody (crxToZipF fuel) data)

/-- Model of `crx_to_zip`.  The fuel `data.length + 1` is more than the
recursion can consume: every recursive call is on a strictly shorter
buffer (proved below), so this equals the unbounded recursion of the
Python source. -/
def crx_to_zip (data : List Nat) : Except String (List Nat) :=
  crxToZipF (data.length + 1) data

/-- The 12-byte header of one nesting layer: CRX3 magic, version
byte 3, zero protobuf-header length. -/
def crx3Hdr : List Nat := [67, 114, 50, 52, 3, 0, 0, 0, 0, 0, 0, 0]

/-- Wrap a payload in `d` CRX3 layers with empty protobuf header. -/
def nestCrx3 : Nat → List Nat → List Nat
  | 0, z => z
  | d + 1, z => crx3Hdr ++ nestCrx3 d z

/-- Iterated application of the error-message wrapper, `k` times. -/
def iterWrap : Nat → String → String
  | 0, m => m
  | k + 1, m => wrapMsg (iterWrap k m)

/-! ### Basic facts about the signature scan -/

/-- If `findSig` reports an occurrence at `p`, the needle really occurs
there, and `p` is inside the haystack. -/
theorem findSig_some_spec {sig : List Nat} : ∀ {data : List Nat} {p : Nat},
    findSig sig data = some p →
    (data.drop p).take sig.length = sig ∧ p < data.length := by
  intro data
  induction data with
  | nil => intro p h; simp [findSig] at h
  | cons d rest ih =>
    intro p h
    simp only [findSig] at h
    split at h
    next hc =>
      have hp : 0 = p := Option.some.inj h
      subst hp
      exact ⟨hc.symm, Nat.succ_pos _⟩
    next hc =>
      rw [Option.map_eq_some'] at h
      obtain ⟨q, hq, hp⟩ := h
      obtain ⟨h1, h2⟩ := ih hq
      subst hp
      constructor
      · simpa [List.drop_succ_cons] using h1
      · simpa using Nat.succ_lt_succ h2

/-- A needle that sits at the front is found at index 0. -/
theorem findSig_of_take {sig data : List Nat} (hne : sig ≠ [])
    (h : data.take sig.length = sig) : findSig sig data = some 0 := by
  cases data with
  | nil =>
    exfalso
    apply hne
    simpa using h.symm
  | cons d rest =>
    simp only [findSig]
    rw [if_pos h.symm]

/-- The suffix returned by `_find_zip_in_data` sits at offset
`data.length - z.length` in `data` and begins with one of the three
ZIP signatures. -/
theorem find_zip_in_data_some {data z : List Nat}
    (h : find_zip_in_data data = some z) :
    data.drop (data.length - z.length) = z ∧
      (z.take 4 = pkLocal ∨ z.take 4 = pkCentral ∨ z.take 4 = pkSpanned) := by
  have key : ∀ (sig : List Nat) (p : Nat), sig.length = 4 →
      findSig sig data = some p → z = data.drop p →
      data.drop (data.length - z.length) = z ∧ z.take 4 = sig := by
    intro sig p hs4 hf hz
    obtain ⟨h1, h2⟩ := findSig_some_spec hf
    have hlen : z.length = data.length - p := by
      rw [hz, List.length_drop]
    have hoff : data.length - z.length = p := by omega
    subst hz
    rw [hoff]
    exact ⟨rfl, by rw [← hs4]; exact h1⟩
  unfold find_zip_in_data at h
  cases hl : findSig pkLocal data with
  | some p =>
    rw [hl] at h
    obtain ⟨ha, hb⟩ := key pkLocal p rfl hl (Option.some.inj h).symm
    exact ⟨ha, Or.inl hb⟩
  | none =>
    rw [hl] at h
    cases hc : findSig pkCentral data with
    | some p =>
      rw [hc] at h
      obtain ⟨ha, hb⟩ := key pkCentral p rfl hc (Option.some.inj h).symm
      exact ⟨ha, Or.inr (Or.inl hb)⟩
    | none =>
      rw [hc] at h
      cases hsp : findSig pkSpanned data with
      | some p =>
        rw [hsp] at h
        obtain ⟨ha, hb⟩ := key pkSpanned p rfl hsp (Option.some.inj h).symm
        exact ⟨ha, Or.inr (Or.inr hb)⟩
      | none => rw [hsp] at h; exact absurd h (by simp)

/-! ### Plumbing lemmas -/

/-- A successful `wrapResult` is exactly a successful body. -/
theorem wrapResult_ok_iff {e : Except String (List Nat)} {r : List Nat} :
    wrapResult e = Except.ok r ↔ e = Except.ok r := by
  cases e <;> simp [wrapResult]

/-- A failing `wrapResult` is a failing body with the message wrapped. -/
theorem wrapResult_error_iff {e : Except String (List Nat)} {m : String} :
    wrapResult e = Except.error m ↔ ∃ m0, e = Except.error m0 ∧ m = wrapMsg m0 := by
  cases e with
  | ok r => simp [wrapResult]
  | error m0 =>
    simp only [wrapResult]
    constructor
    · intro h
      exact ⟨m0, rfl, (Except.error.inj h).symm⟩
    · rintro ⟨m1, h1, h2⟩
      rw [h2, Except.error.inj h1]

/-- If a length-`n` list is the `n`-byte take of `l`, then `l` has at
least `n` bytes. -/
theorem take_eq_le_length {l s : List Nat} {n : Nat} (h : l.take n = s)
    (hs : s.length = n) : n ≤ l.length := by
  have hlen := congrArg List.length h
  rw [List.length_take, hs] at hlen
  omega

/-- One unfolding step of the fuelled decoder. -/
theorem crxToZipF_succ (fuel : Nat) (data : List Nat) :
    crxToZipF (fuel + 1) data = wrapResult (crxBody (crxToZipF fuel) data) := rfl

/-! ### Branch lemmas for the decoder body -/

/-- Already-ZIP branch of the body. -/
theorem crxBody_zip (rec : List Nat → Except String (List Nat)) {data : List Nat}
    (h : data.take 4 = pkLocal) : crxBody rec data = Except.ok data := by
  have h4 : 4 ≤ data.length := take_eq_le_length h rfl
  unfold crxBody
  rw [if_pos ⟨h4, h⟩]

/-- Signature-scan branch of the body. -/
theorem crxBody_scan (rec : List Nat → Except String (List Nat)) {data : List Nat}
    (h1 : ¬(4 ≤ data.length ∧ data.take 4 = pkLocal))
    (h2 : data.length < 8 ∨ data.take 4 ≠ cr24) :
    crxBody rec data =
      match find_zip_in_data data with
      | some z => Except.ok z
      | none => Except.error "Invalid CRX file: Does not start with Cr24" := by
  unfold crxBody
  rw [if_neg h1, if_pos h2]

/-- A buffer starting with `Cr24` does not start with `PK\x03\x04`. -/
theorem not_pk_of_cr24 {data : List Nat} (hm : data.take 4 = cr24) :
    ¬(4 ≤ data.length ∧ data.take 4 = pkLocal) := by
  rintro ⟨-, hp⟩
  rw [hm] at hp
  exact absurd hp (by decide)

/-- Version-3 branch of the body. -/
theorem crxBody_v3 (rec : List Nat → Except String (List Nat)) {data : List Nat}
    (hm : data.take 4 = cr24) (h8 : 8 ≤ data.length) (hv : data.getD 4 0 = 3) :
    crxBody rec data =
      match parse_crx3_header data with
      | Except.error m => Except.error m
      | Except.ok offset =>
        if data.length ≤ offset then
          Except.error "CRX file appears to be corrupted"
        else if data.getD 4 0 = 3 ∧ 4 ≤ (data.drop offset).length ∧
            (data.drop offset).take 4 = cr24 then
          rec (data.drop offset)
        else Except.ok (data.drop offset) := by
  have hns : ¬(data.length < 8 ∨ data.take 4 ≠ cr24) := by
    rintro (h | h)
    · omega
    · exact h hm
  unfold crxBody
  rw [if_neg (not_pk_of_cr24 hm), if_neg hns, if_pos (Or.inr hv),
    if_neg (show ¬data.getD 4 0 = 2 by rw [hv]; decide)]

/-- Version-2 branch of the body. -/
theorem crxBody_v2 (rec : List Nat → Except String (List Nat)) {data : List Nat}
    (hm : data.take 4 = cr24) (h8 : 8 ≤ data.length) (hv : data.getD 4 0 = 2) :
    crxBody rec data =
      match parse_crx2_header data with
      | Except.error m => Except.error m
      | Except.ok offset =>
        if data.length ≤ offset then
          Except.error "CRX file appears to be corrupted"
        else if data.getD 4 0 = 3 ∧ 4 ≤ (data.drop offset).length ∧
            (data.drop offset).take 4 = cr24 then
          rec (data.drop offset)
        else Except.ok (data.drop offset) := by
  have hns : ¬(data.length < 8 ∨ data.take 4 ≠ cr24) := by
    rintro (h | h)
    · omega
    · exact h hm
  unfold crxBody
  rw [if_neg (not_pk_of_cr24 hm), if_neg hns, if_pos (Or.inl hv), if_pos hv]

/-- Successful `_parse_crx3_header` under the sanity ceiling. -/
theorem parse_crx3_header_ok {data : List Nat} (h12 : 12 ≤ data.length)
    (hH : readLE32 data 8 ≤ 10000) :
    parse_crx3_header data = Except.ok (12 + readLE32 data 8) := by
  unfold parse_crx3_header
  rw [if_neg (by omega), if_neg (by omega)]

/-- Successful `_parse_crx2_header` under the sanity ceilings. -/
theorem parse_crx2_header_ok {data : List Nat} (h16 : 16 ≤ data.length)
    (hK : readLE32 data 8 ≤ 10000) (hS : readLE32 data 12 ≤ 10000) :
    parse_crx2_header data =
      Except.ok (16 + readLE32 data 8 + readLE32 data 12) := by
  unfold parse_crx2_header
  rw [if_neg (by omega), if_neg (by push_neg; omega)]

/-- At the nested-container recursion site the offset came from the
arithmetic `12 + headerLen` branch (the scan fallback always yields a
payload starting with a ZIP signature, never `Cr24`), so it is at
least 12. -/
theorem crx3_offset_twelve_le {data : List Nat} {off : Nat}
    (hp : parse_crx3_header data = Except.ok off)
    (hc : (data.drop off).take 4 = cr24) : 12 ≤ off := by
  unfold parse_crx3_header at hp
  split at hp
  · exact absurd hp (by simp)
  · split at hp
    · unfold find_zip_offset at hp
      cases hz : find_zip_in_data data with
      | some z =>
        rw [hz] at hp
        have hoff : off = data.length - z.length := (Except.ok.inj hp).symm
        obtain ⟨hdrop, hsig⟩ := find_zip_in_data_some hz
        rw [hoff, hdrop] at hc
        rcases hsig with h | h | h <;> rw [hc] at h <;> exact absurd h (by decide)
      | none => rw [hz] at hp; exact absurd hp (by simp)
    · have hoff : off = 12 + readLE32 data 8 := (Except.ok.inj hp).symm
      omega

/-- The body only calls the recursion argument on strictly shorter
buffers, so two recursion arguments agreeing on shorter buffers give
the same body result. -/
theorem crxBody_congr {rec₁ rec₂ : List Nat → Except String (List Nat)}
    {data : List Nat} (h : ∀ zd, zd.length < data.length → rec₁ zd = rec₂ zd) :
    crxBody rec₁ data = crxBody rec₂ data := by
  unfold crxBody
  by_cases hA : 4 ≤ data.length ∧ data.take 4 = pkLocal
  · rw [if_pos hA, if_pos hA]
  · rw [if_neg hA, if_neg hA]
    by_cases hB : data.length < 8 ∨ data.take 4 ≠ cr24
    · rw [if_pos hB, if_pos hB]
    · rw [if_neg hB, if_neg hB]
      by_cases hC : data.getD 4 0 = 2 ∨ data.getD 4 0 = 3
      · rw [if_pos hC, if_pos hC]
        cases hp : (if data.getD 4 0 = 2 then parse_crx2_header data
            else parse_crx3_header data) with
        | error m => rfl
        | ok off =>
          dsimp only
          by_cases hD : data.length ≤ off
          · rw [if_pos hD, if_pos hD]
          · rw [if_neg hD, if_neg hD]
            by_cases hE : data.getD 4 0 = 3 ∧ 4 ≤ (data.drop off).length ∧
                (data.drop off).take 4 = cr24
            · rw [if_pos hE, if_pos hE]
              apply h
              have hne2 : ¬data.getD 4 0 = 2 := by rw [hE.1]; decide
              rw [if_neg hne2] at hp
              have h12 : 12 ≤ off := crx3_offset_twelve_le hp hE.2.2
              rw [List.length_drop]
              omega
            · rw [if_neg hE, if_neg hE]
      · rw [if_neg hC, if_neg hC]

/-- Fuel irrelevance: any fuel exceeding the buffer length yields the
same result — the recursion consumes at most one fuel unit per strict
shrink of the buffer, so it always bottoms out. -/
theorem crxToZipF_stable_aux : ∀ (n : Nat) (data : List Nat), data.length ≤ n →
    ∀ f g : Nat, data.length < f → data.length < g →
    crxToZipF f data = crxToZipF g data := by
  intro n
  induction n with
  | zero =>
    intro data hd f g hf hg
    obtain ⟨f', rfl⟩ : ∃ f', f = f' + 1 := ⟨f - 1, by omega⟩
    obtain ⟨g', rfl⟩ : ∃ g', g = g' + 1 := ⟨g - 1, by omega⟩
    rw [crxToZipF_succ, crxToZipF_succ]
    congr 1
    apply crxBody_congr
    intro zd hzd
    exact absurd hzd (by omega)
  | succ n ih =>
    intro data hd f g hf hg
    obtain ⟨f', rfl⟩ : ∃ f', f = f' + 1 := ⟨f - 1, by omega⟩
    obtain ⟨g', rfl⟩ : ∃ g', g = g' + 1 := ⟨g - 1, by omega⟩
    rw [crxToZipF_succ, crxToZipF_succ]
    congr 1
    apply crxBody_congr
    intro zd hzd
    exact ih zd (by omega) f' g' (by omega) (by omega)

/-- Fuel irrelevance, applied form. -/
theorem crxToZipF_stable {f g : Nat} {data : List Nat}
    (hf : data.length < f) (hg : data.length < g) :
    crxToZipF f data = crxToZipF g data :=
  crxToZipF_stable_aux data.length data le_rfl f g hf hg

/-! ### Path lemmas for the top-level decoder -/

/-- Already-ZIP path: input returned unchanged. -/
theorem crx_to_zip_pk {data : List Nat} (h : data.take 4 = pkLocal) :
    crx_to_zip data = Except.ok data := by
  unfold crx_to_zip
  rw [crxToZipF_succ, crxBody_zip _ h]
  rfl

/-- Signature-scan path, signature found. -/
theorem crx_to_zip_scan_some {data z : List Nat}
    (h1 : ¬(4 ≤ data.length ∧ data.take 4 = pkLocal))
    (h2 : data.length < 8 ∨ data.take 4 ≠ cr24)
    (hz : find_zip_in_data data = some z) :
    crx_to_zip data = Except.ok z := by
  unfold crx_to_zip
  rw [crxToZipF_succ, crxBody_scan _ h1 h2, hz]
  rfl

/-- Signature-scan path, no signature anywhere. -/
theorem crx_to_zip_scan_none {data : List Nat}
    (h1 : ¬(4 ≤ data.length ∧ data.take 4 = pkLocal))
    (h2 : data.length < 8 ∨ data.take 4 ≠ cr24)
    (hz : find_zip_in_data data = none) :
    crx_to_zip data =
      Except.error (wrapMsg "Invalid CRX file: Does not start with Cr24") := by
  unfold crx_to_zip
  rw [crxToZipF_succ, crxBody_scan _ h1 h2, hz]
  rfl

/-- Version-3 path without nesting: return the payload slice. -/
theorem crx_to_zip_v3_direct {data : List Nat} {off : Nat}
    (hm : data.take 4 = cr24) (h8 : 8 ≤ data.length) (hv : data.getD 4 0 = 3)
    (hp : parse_crx3_header data = Except.ok off) (hlt : off < data.length)
    (hnz : (data.drop off).take 4 ≠ cr24) :
    crx_to_zip data = Except.ok (data.drop off) := by
  unfold crx_to_zip
  rw [crxToZipF_succ, crxBody_v3 _ hm h8 hv, hp]
  dsimp only
  rw [if_neg (show ¬data.length ≤ off by omega),
    if_neg (show ¬(data.getD 4 0 = 3 ∧ 4 ≤ (data.drop off).length ∧
      (data.drop off).take 4 = cr24) from fun hE => hnz hE.2.2)]
  rfl

/-- Version-3 path with a nested container: one `try` layer around the
recursive call on the payload. -/
theorem crx_to_zip_v3_rec {data : List Nat} {off : Nat}
    (hm : data.take 4 = cr24) (h8 : 8 ≤ data.length) (hv : data.getD 4 0 = 3)
    (hp : parse_crx3_header data = Except.ok off) (hlt : off < data.length)
    (hc : (data.drop off).take 4 = cr24) :
    crx_to_zip data = wrapResult (crx_to_zip (data.drop off)) := by
  have h12 : 12 ≤ off := crx3_offset_twelve_le hp hc
  have h4z : 4 ≤ (data.drop off).length := take_eq_le_length hc rfl
  unfold crx_to_zip
  rw [crxToZipF_succ, crxBody_v3 _ hm h8 hv, hp]
  dsimp only
  rw [if_neg (show ¬data.length ≤ off by omega), if_pos ⟨hv, h4z, hc⟩]
  congr 1
  apply crxToZipF_stable
  · rw [List.length_drop]
    omega
  · exact Nat.lt_succ_self _

/-- Version-2 path: return the payload slice (no nested-container check
for version 2). -/
theorem crx_to_zip_v2 {data : List Nat} {off : Nat}
    (hm : data.take 4 = cr24) (h8 : 8 ≤ data.length) (hv : data.getD 4 0 = 2)
    (hp : parse_crx2_header data = Except.ok off) (hlt : off < data.length) :
    crx_to_zip data = Except.ok (data.drop off) := by
  unfold crx_to_zip
  rw [crxToZipF_succ, crxBody_v2 _ hm h8 hv, hp]
  dsimp only
  rw [if_neg (show ¬data.length ≤ off by omega),
    if_neg (show ¬(data.getD 4 0 = 3 ∧ 4 ≤ (data.drop off).length ∧
      (data.drop off).take 4 = cr24) from fun hE => by
        rw [hv] at hE
        exact absurd hE.1 (by decide))]
  rfl

/-! ### Nested-layer step lemmas -/

/-- Length of a `d`-fold nested buffer. -/
theorem nestCrx3_length (d : Nat) (z : List Nat) :
    (nestCrx3 d z).length = 12 * d + z.length := by
  induction d with
  | zero => simp [nestCrx3]
  | succ d ih =>
    simp only [nestCrx3, List.length_append, ih, crx3Hdr]
    simp
    ring

/-- Unwrapping one CRX3 layer whose payload is again a container:
the decoder recurses on the payload and wraps its result once. -/
theorem crx_to_zip_layer_rec {t : List Nat} (hc : t.take 4 = cr24) :
    crx_to_zip (crx3Hdr ++ t) = wrapResult (crx_to_zip t) := by
  have ht : 4 ≤ t.length := take_eq_le_length hc rfl
  have hm : (crx3Hdr ++ t).take 4 = cr24 := rfl
  have hv : (crx3Hdr ++ t).getD 4 0 = 3 := rfl
  have hlen : (crx3Hdr ++ t).length = 12 + t.length := by simp [crx3Hdr]; omega
  have hr : readLE32 (crx3Hdr ++ t) 8 = 0 := rfl
  have hp : parse_crx3_header (crx3Hdr ++ t) = Except.ok 12 := by
    have h0 := parse_crx3_header_ok
      (show 12 ≤ (crx3Hdr ++ t).length by rw [hlen]; omega)
      (show readLE32 (crx3Hdr ++ t) 8 ≤ 10000 by rw [hr]; omega)
    rw [hr] at h0
    simpa using h0
  have hdrop : (crx3Hdr ++ t).drop 12 = t := rfl
  have hstep := crx_to_zip_v3_rec hm (by rw [hlen]; omega) hv hp
    (by rw [hlen]; omega) (by rw [hdrop]; exact hc)
  rw [hstep, hdrop]

/-- Unwrapping one CRX3 layer whose payload is not a container:
the decoder returns the payload. -/
theorem crx_to_zip_layer_stop {t : List Nat} (ht : 1 ≤ t.length)
    (hnz : t.take 4 ≠ cr24) : crx_to_zip (crx3Hdr ++ t) = Except.ok t := by
  have hm : (crx3Hdr ++ t).take 4 = cr24 := rfl
  have hv : (crx3Hdr ++ t).getD 4 0 = 3 := rfl
  have hlen : (crx3Hdr ++ t).length = 12 + t.length := by simp [crx3Hdr]; omega
  have hr : readLE32 (crx3Hdr ++ t) 8 = 0 := rfl
  have hp : parse_crx3_header (crx3Hdr ++ t) = Except.ok 12 := by
    have h0 := parse_crx3_header_ok
      (show 12 ≤ (crx3Hdr ++ t).length by rw [hlen]; omega)
      (show readLE32 (crx3Hdr ++ t) 8 ≤ 10000 by rw [hr]; omega)
    rw [hr] at h0
    simpa using h0
  have hdrop : (crx3Hdr ++ t).drop 12 = t := rfl
  have hstep := crx_to_zip_v3_direct hm (by rw [hlen]; omega) hv hp
    (by rw [hlen]; omega) (by rw [hdrop]; exact hnz)
  rw [hstep, hdrop]

/-! ### The claims -/

/-- C1: for every well-formed CRX3 buffer (magic `Cr24`, version byte 3,
at least 12 bytes, header length `H` read little-endian at offset 8 with
`H ≤ 10000`, `12 + H` strictly below the buffer length, and the bytes at
`12 + H` not beginning with `Cr24`), decoding succeeds and returns
exactly the suffix `raw[12+H:]`. -/
theorem crx3_wellformed_decodes_suffix (data : List Nat)
    (hm : data.take 4 = cr24) (hv : data.getD 4 0 = 3)
    (h12 : 12 ≤ data.length)
    (hH : readLE32 data 8 ≤ 10000)
    (hoff : 12 + readLE32 data 8 < data.length)
    (hnz : (data.drop (12 + readLE32 data 8)).take 4 ≠ cr24) :
    crx_to_zip data = Except.ok (data.drop (12 + readLE32 data 8)) :=
  crx_to_zip_v3_direct hm (by omega) hv (parse_crx3_header_ok h12 hH) hoff hnz

/-- Witness for C1 on a concrete well-formed CRX3 buffer with `H = 1`. -/
theorem crx3_wellformed_decodes_suffix_witness :
    crx_to_zip [67, 114, 50, 52, 3, 0, 0, 0, 1, 0, 0, 0, 9, 80, 75, 3, 4] =
      Except.ok [80, 75, 3, 4] := by
  have h := crx3_wellformed_decodes_suffix
    [67, 114, 50, 52, 3, 0, 0, 0, 1, 0, 0, 0, 9, 80, 75, 3, 4]
    (by decide) (by decide) (by decide) (by decide) (by decide) (by decide)
  exact h

/-- C2: for every well-formed CRX2 buffer (magic `Cr24`, version byte 2,
at least 16 bytes, key length `K` and signature length `S` read
little-endian at offsets 8 and 12 with `K ≤ 10000` and `S ≤ 10000`, and
`16 + K + S` strictly below the buffer length), decoding succeeds and
returns exactly the suffix `raw[16+K+S:]`. -/
theorem crx2_wellformed_decodes_suffix (data : List Nat)
    (hm : data.take 4 = cr24) (hv : data.getD 4 0 = 2)
    (h16 : 16 ≤ data.length)
    (hK : readLE32 data 8 ≤ 10000) (hS : readLE32 data 12 ≤ 10000)
    (hoff : 16 + readLE32 data 8 + readLE32 data 12 < data.length) :
    crx_to_zip data =
      Except.ok (data.drop (16 + readLE32 data 8 + readLE32 data 12)) :=
  crx_to_zip_v2 hm (by omega) hv (parse_crx2_header_ok h16 hK hS) hoff

/-- Witness for C2 on a concrete well-formed CRX2 buffer with `K = 1`,
`S = 2`. -/
theorem crx2_wellformed_decodes_suffix_witness :
    crx_to_zip [67, 114, 50, 52, 2, 0, 0, 0, 1, 0, 0, 0, 2, 0, 0, 0, 7, 8, 9, 42] =
      Except.ok [42] := by
  have h := crx2_wellformed_decodes_suffix
    [67, 114, 50, 52, 2, 0, 0, 0, 1, 0, 0, 0, 2, 0, 0, 0, 7, 8, 9, 42]
    (by decide) (by decide) (by decide) (by decide) (by decide) (by decide)
  exact h

/-- C3: every input whose first 4 bytes are the ZIP local-file signature
`PK\x03\x04` is returned unchanged, a terminal success. -/
theorem already_zip_returned_unchanged (data : List Nat)
    (h : data.take 4 = pkLocal) : crx_to_zip data = Except.ok data :=
  crx_to_zip_pk h

/-- Witness for C3: a ZIP signature followed by arbitrary trailing
bytes is returned verbatim. -/
theorem already_zip_returned_unchanged_witness :
    crx_to_zip [80, 75, 3, 4, 200, 1, 77] = Except.ok [80, 75, 3, 4, 200, 1, 77] :=
  already_zip_returned_unchanged [80, 75, 3, 4, 200, 1, 77] (by decide)

/-- C4 counterexample: in `[PK\x05\x06, PK\x03\x04]` the signature
`PK\x05\x06` occurs at offset 0, strictly before the `PK\x03\x04` at
offset 4, yet the scan returns the suffix at offset 4 — the claimed
earliest-occurrence policy would have returned the whole buffer. -/
theorem scan_priority_counterexample :
    findSig pkCentral [80, 75, 5, 6, 80, 75, 3, 4] = some 0 ∧
    findSig pkLocal [80, 75, 5, 6, 80, 75, 3, 4] = some 4 ∧
    crx_to_zip [80, 75, 5, 6, 80, 75, 3, 4] = Except.ok [80, 75, 3, 4] ∧
    crx_to_zip [80, 75, 5, 6, 80, 75, 3, 4] ≠
      Except.ok [80, 75, 5, 6, 80, 75, 3, 4] := by decide

/-- C4 amended: the signature-scan fallback searches the three ZIP
signatures in the fixed priority order `PK\x03\x04`, `PK\x05\x06`,
`PK\x07\x08` — it returns the suffix at the earliest occurrence of the
first signature of that list occurring anywhere in the buffer, not the
globally earliest occurrence among all three; whenever the fallback
runs (buffer shorter than 8 bytes or not starting with `Cr24`, or a
version-3 header length above the 10000 ceiling, or a version-2 key or
signature length above the 10000 ceiling), decode returns exactly the
pick of the scan. -/
theorem scan_fallback_priority_order (data : List Nat) :
    (∀ p, findSig pkLocal data = some p →
      find_zip_in_data data = some (data.drop p)) ∧
    (findSig pkLocal data = none → ∀ p, findSig pkCentral data = some p →
      find_zip_in_data data = some (data.drop p)) ∧
    (findSig pkLocal data = none → findSig pkCentral data = none →
      ∀ p, findSig pkSpanned data = some p →
      find_zip_in_data data = some (data.drop p)) ∧
    (¬(4 ≤ data.length ∧ data.take 4 = pkLocal) →
      (data.length < 8 ∨ data.take 4 ≠ cr24) →
      ∀ z, find_zip_in_data data = some z → crx_to_zip data = Except.ok z) ∧
    (data.take 4 = cr24 → data.getD 4 0 = 3 → 12 ≤ data.length →
      10000 < readLE32 data 8 →
      ∀ z, find_zip_in_data data = some z → crx_to_zip data = Except.ok z) ∧
    (data.take 4 = cr24 → data.getD 4 0 = 2 → 16 ≤ data.length →
      (10000 < readLE32 data 8 ∨ 10000 < readLE32 data 12) →
      ∀ z, find_zip_in_data data = some z → crx_to_zip data = Except.ok z) := by
  refine ⟨?_, ?_, ?_, ?_, ?_, ?_⟩
  · intro p hp
    unfold find_zip_in_data
    rw [hp]
  · intro hl p hp
    unfold find_zip_in_data
    rw [hl, hp]
  · intro hl hc p hp
    unfold find_zip_in_data
    rw [hl, hc, hp]
  · intro h1 h2 z hz
    exact crx_to_zip_scan_some h1 h2 hz
  · intro hm hv h12 hH z hz
    obtain ⟨hdrop, hsig⟩ := find_zip_in_data_some hz
    have hzlen : z.length ≤ data.length := by
      have := congrArg List.length hdrop
      rw [List.length_drop] at this
      omega
    have h4z : 4 ≤ z.length := by
      rcases hsig with h | h | h <;> exact take_eq_le_length h rfl
    have hofflt : data.length - z.length < data.length := by omega
    have hp : parse_crx3_header data = Except.ok (data.length - z.length) := by
      unfold parse_crx3_header
      rw [if_neg (by omega), if_pos hH]
      unfold find_zip_offset
      rw [hz]
    have hnz : (data.drop (data.length - z.length)).take 4 ≠ cr24 := by
      rw [hdrop]
      rcases hsig with h | h | h <;> rw [h] <;> decide
    rw [crx_to_zip_v3_direct hm (by omega) hv hp hofflt hnz, hdrop]
  · intro hm hv h16 hceil z hz
    obtain ⟨hdrop, hsig⟩ := find_zip_in_data_some hz
    have hzlen : z.length ≤ data.length := by
      have := congrArg List.length hdrop
      rw [List.length_drop] at this
      omega
    have h4z : 4 ≤ z.length := by
      rcases hsig with h | h | h <;> exact take_eq_le_length h rfl
    have hofflt : data.length - z.length < data.length := by omega
    have hp : parse_crx2_header data = Except.ok (data.length - z.length) := by
      unfold parse_crx2_header
      rw [if_neg (by omega), if_pos hceil]
      unfold find_zip_offset
      rw [hz]
    rw [crx_to_zip_v2 hm (by omega) hv hp hofflt, hdrop]

/-- Witness for the amended C4: the priority policy on concrete
fallback inputs of every kind (branch-two fallback with both a central
and a local signature, branch-two fallback with only a spanned
signature, branch-two fallback with only a central signature, a
version-3 header-ceiling fallback, and a version-2 key-length-ceiling
fallback). -/
theorem scan_fallback_priority_order_witness :
    crx_to_zip [80, 75, 5, 6, 80, 75, 3, 4] = Except.ok [80, 75, 3, 4] ∧
    crx_to_zip [1, 1, 80, 75, 7, 8] = Except.ok [80, 75, 7, 8] ∧
    crx_to_zip [9, 80, 75, 5, 6] = Except.ok [80, 75, 5, 6] ∧
    crx_to_zip [67, 114, 50, 52, 3, 0, 0, 0, 255, 255, 255, 255, 80, 75, 3, 4] =
      Except.ok [80, 75, 3, 4] ∧
    crx_to_zip [67, 114, 50, 52, 2, 0, 0, 0, 255, 255, 255, 255,
      0, 0, 0, 0, 80, 75, 3, 4] = Except.ok [80, 75, 3, 4] := by
  refine ⟨?_, ?_, ?_, ?_, ?_⟩
  · exact (scan_fallback_priority_order [80, 75, 5, 6, 80, 75, 3, 4]).2.2.2.1
      (by decide) (by decide) _
      ((scan_fallback_priority_order [80, 75, 5, 6, 80, 75, 3, 4]).1 4 (by decide))
  · exact (scan_fallback_priority_order [1, 1, 80, 75, 7, 8]).2.2.2.1
      (by decide) (by decide) _
      ((scan_fallback_priority_order [1, 1, 80, 75, 7, 8]).2.2.1
        (by decide) (by decide) 2 (by decide))
  · exact (scan_fallback_priority_order [9, 80, 75, 5, 6]).2.2.2.1
      (by decide) (by decide) _
      ((scan_fallback_priority_order [9, 80, 75, 5, 6]).2.1 (by decide) 1 (by decide))
  · exact (scan_fallback_priority_order
      [67, 114, 50, 52, 3, 0, 0, 0, 255, 255, 255, 255, 80, 75, 3, 4]).2.2.2.2.1
      (by decide) (by decide) (by decide) (by decide) _
      ((scan_fallback_priority_order
        [67, 114, 50, 52, 3, 0, 0, 0, 255, 255, 255, 255, 80, 75, 3, 4]).1 12 (by decide))
  · exact (scan_fallback_priority_order
      [67, 114, 50, 52, 2, 0, 0, 0, 255, 255, 255, 255, 0, 0, 0, 0,
        80, 75, 3, 4]).2.2.2.2.2
      (by decide) (by decide) (by decide) (Or.inl (by decide)) _
      ((scan_fallback_priority_order
        [67, 114, 50, 52, 2, 0, 0, 0, 255, 255, 255, 255, 0, 0, 0, 0,
          80, 75, 3, 4]).1 16 (by decide))

/-- C5 counterexample: a well-formed CRX3 buffer whose payload is the
single byte 88 decodes successfully, yet the result begins with no ZIP
signature — the header-driven path performs no such check. -/
theorem decoded_zip_sig_counterexample :
    crx_to_zip [67, 114, 50, 52, 3, 0, 0, 0, 0, 0, 0, 0, 88] = Except.ok [88] ∧
    [88].take 4 ≠ pkLocal ∧ [88].take 4 ≠ pkCentral ∧
    [88].take 4 ≠ pkSpanned := by decide

/-- C5 amended: on the already-ZIP path and on the signature-scan path
every successful result begins with one of the three ZIP signatures;
the header-driven CRX2/CRX3 paths return the suffix at the computed
offset without any check that it begins with a ZIP signature. -/
theorem decoded_zip_sig_on_zip_paths (data r : List Nat)
    (hpath : (4 ≤ data.length ∧ data.take 4 = pkLocal) ∨
      data.length < 8 ∨ data.take 4 ≠ cr24)
    (h : crx_to_zip data = Except.ok r) :
    r.take 4 = pkLocal ∨ r.take 4 = pkCentral ∨ r.take 4 = pkSpanned := by
  by_cases hA : 4 ≤ data.length ∧ data.take 4 = pkLocal
  · rw [crx_to_zip_pk hA.2] at h
    have hr := Except.ok.inj h
    subst hr
    exact Or.inl hA.2
  · have h2 : data.length < 8 ∨ data.take 4 ≠ cr24 := hpath.resolve_left hA
    cases hz : find_zip_in_data data with
    | none =>
      rw [crx_to_zip_scan_none hA h2 hz] at h
      exact absurd h (by simp)
    | some z =>
      rw [crx_to_zip_scan_some hA h2 hz] at h
      have hzr := Except.ok.inj h
      subst hzr
      exact (find_zip_in_data_some hz).2

/-- Witness for the amended C5 at a bare end-of-central-directory
record. -/
theorem decoded_zip_sig_on_zip_paths_witness :
    [80, 75, 5, 6].take 4 = pkLocal ∨ [80, 75, 5, 6].take 4 = pkCentral ∨
      [80, 75, 5, 6].take 4 = pkSpanned :=
  decoded_zip_sig_on_zip_paths [80, 75, 5, 6] [80, 75, 5, 6]
    (by decide) (by decide)

/-- C6 counterexample: a CRX3-in-CRX3 nest of depth 9 (> 8) still fully
unwraps to the innermost ZIP payload instead of failing — the code has
no recursion cap and no `TooDeeplyNested` error. -/
theorem nested_depth_nine_counterexample :
    crx_to_zip (nestCrx3 9 [80, 75, 3, 4]) = Except.ok [80, 75, 3, 4] := by decide

/-- C6 amended: nested CRX3-in-CRX3 of every depth `d` — with no upper
bound, in particular also `d > 8` — fully unwraps to the innermost ZIP
payload; no depth produces an error. -/
theorem nested_crx3_unwraps_all_depths (d : Nat) (z : List Nat)
    (hz : z.take 4 = pkLocal) : crx_to_zip (nestCrx3 d z) = Except.ok z := by
  induction d with
  | zero => exact crx_to_zip_pk hz
  | succ d ih =>
    cases d with
    | zero =>
      have h4 := take_eq_le_length hz rfl
      have h1 : 1 ≤ z.length := by omega
      have hnz : z.take 4 ≠ cr24 := by rw [hz]; decide
      exact crx_to_zip_layer_stop h1 hnz
    | succ d' =>
      have hc : (nestCrx3 (d' + 1) z).take 4 = cr24 := rfl
      show crx_to_zip (crx3Hdr ++ nestCrx3 (d' + 1) z) = Except.ok z
      rw [crx_to_zip_layer_rec hc, ih]
      rfl

/-- Witness for the amended C6 at depth 3. -/
theorem nested_crx3_unwraps_all_depths_witness :
    crx_to_zip (nestCrx3 3 [80, 75, 3, 4, 7, 7]) =
      Except.ok [80, 75, 3, 4, 7, 7] :=
  nested_crx3_unwraps_all_depths 3 [80, 75, 3, 4, 7, 7] (by decide)

/-- C7: the decoder terminates on every input — the fuelled model is
independent of the fuel once it exceeds the buffer length (so the
unbounded Python recursion always bottoms out), and at the
nested-container recursion site the computed offset is at least 12 and
strictly below the buffer length, making the payload strictly shorter
than the buffer of the caller. -/
theorem decode_terminates_on_all_inputs :
    (∀ (f g : Nat) (data : List Nat), data.length < f → data.length < g →
      crxToZipF f data = crxToZipF g data) ∧
    (∀ (data : List Nat) (off : Nat), data.take 4 = cr24 →
      data.getD 4 0 = 3 → parse_crx3_header data = Except.ok off →
      off < data.length → (data.drop off).take 4 = cr24 →
      12 ≤ off ∧ (data.drop off).length < data.length) := by
  constructor
  · intro f g data hf hg
    exact crxToZipF_stable hf hg
  · intro data off hm hv hp hlt hc
    refine ⟨crx3_offset_twelve_le hp hc, ?_⟩
    have h12 := crx3_offset_twelve_le hp hc
    rw [List.length_drop]
    omega

/-- Witness for C7: fuel irrelevance on a concrete nested buffer, and
the shrinking-offset facts on a concrete container-in-container. -/
theorem decode_terminates_on_all_inputs_witness :
    crxToZipF 17 (nestCrx3 1 [80, 75, 3, 4]) =
      crxToZipF 99 (nestCrx3 1 [80, 75, 3, 4]) ∧
    (12 ≤ 12 ∧
      (([67, 114, 50, 52, 3, 0, 0, 0, 0, 0, 0, 0, 67, 114, 50, 52, 3, 0, 0, 0] :
        List Nat).drop 12).length <
      ([67, 114, 50, 52, 3, 0, 0, 0, 0, 0, 0, 0, 67, 114, 50, 52, 3, 0, 0, 0] :
        List Nat).length) := by
  constructor
  · exact decode_terminates_on_all_inputs.1 17 99 (nestCrx3 1 [80, 75, 3, 4])
      (by decide) (by decide)
  · exact decode_terminates_on_all_inputs.2
      [67, 114, 50, 52, 3, 0, 0, 0, 0, 0, 0, 0, 67, 114, 50, 52, 3, 0, 0, 0] 12
      (by decide) (by decide) (by decide) (by decide) (by decide)

/-- C8 counterexample: decoding a CRX3 whose payload is
`PK\x05\x06 ++ PK\x03\x04` succeeds with a result that begins with the
ZIP signature `PK\x05\x06`, yet re-decoding that result does not return
it unchanged — the scan prefers the later `PK\x03\x04` occurrence and
returns a proper suffix. -/
theorem decode_idempotence_counterexample :
    crx_to_zip [67, 114, 50, 52, 3, 0, 0, 0, 0, 0, 0, 0,
      80, 75, 5, 6, 80, 75, 3, 4] = Except.ok [80, 75, 5, 6, 80, 75, 3, 4] ∧
    [80, 75, 5, 6, 80, 75, 3, 4].take 4 = pkCentral ∧
    crx_to_zip [80, 75, 5, 6, 80, 75, 3, 4] = Except.ok [80, 75, 3, 4] ∧
    crx_to_zip [80, 75, 5, 6, 80, 75, 3, 4] ≠
      Except.ok [80, 75, 5, 6, 80, 75, 3, 4] := by decide

/-- C8 amended: re-decoding a successful output returns it unchanged
when the output begins with `PK\x03\x04`, or begins with `PK\x05\x06`
(resp. `PK\x07\x08`) and no higher-priority ZIP signature occurs
anywhere inside it; an output starting with `PK\x05\x06` or
`PK\x07\x08` that contains a higher-priority signature later re-decodes
to a proper suffix instead. -/
theorem decode_idempotent_on_sig_outputs (b r : List Nat)
    (_hb : crx_to_zip b = Except.ok r)
    (hr : r.take 4 = pkLocal ∨
      (r.take 4 = pkCentral ∧ findSig pkLocal r = none) ∨
      (r.take 4 = pkSpanned ∧ findSig pkLocal r = none ∧
        findSig pkCentral r = none)) :
    crx_to_zip r = Except.ok r := by
  rcases hr with h | ⟨h, hl⟩ | ⟨h, hl, hc⟩
  · exact crx_to_zip_pk h
  · have hA : ¬(4 ≤ r.length ∧ r.take 4 = pkLocal) := by
      rintro ⟨-, hp⟩
      rw [h] at hp
      exact absurd hp (by decide)
    have h2 : r.length < 8 ∨ r.take 4 ≠ cr24 := Or.inr (by rw [h]; decide)
    have hz : find_zip_in_data r = some r := by
      unfold find_zip_in_data
      rw [hl, findSig_of_take (by decide)
        (show r.take pkCentral.length = pkCentral from h)]
      rfl
    exact crx_to_zip_scan_some hA h2 hz
  · have hA : ¬(4 ≤ r.length ∧ r.take 4 = pkLocal) := by
      rintro ⟨-, hp⟩
      rw [h] at hp
      exact absurd hp (by decide)
    have h2 : r.length < 8 ∨ r.take 4 ≠ cr24 := Or.inr (by rw [h]; decide)
    have hz : find_zip_in_data r = some r := by
      unfold find_zip_in_data
      rw [hl, hc, findSig_of_take (by decide)
        (show r.take pkSpanned.length = pkSpanned from h)]
      rfl
    exact crx_to_zip_scan_some hA h2 hz

/-- Witness for the amended C8: an unwrapped end-of-central-directory
record with no embedded `PK\x03\x04` re-decodes to itself. -/
theorem decode_idempotent_on_sig_outputs_witness :
    crx_to_zip [80, 75, 5, 6] = Except.ok [80, 75, 5, 6] :=
  decode_idempotent_on_sig_outputs
    [67, 114, 50, 52, 3, 0, 0, 0, 0, 0, 0, 0, 80, 75, 5, 6] [80, 75, 5, 6]
    (by decide) (by decide)

/-- Every successful run of the fuelled decoder returns a suffix of its
input (induction over fuel, through the nested-container recursion). -/
theorem crxToZipF_ok_suffix : ∀ (fuel : Nat) (data r : List Nat),
    crxToZipF fuel data = Except.ok r → ∃ k, r = data.drop k := by
  intro fuel
  induction fuel with
  | zero =>
    intro data r h
    exact absurd h (by simp [crxToZipF])
  | succ fuel ih =>
    intro data r h
    rw [crxToZipF_succ, wrapResult_ok_iff] at h
    unfold crxBody at h
    split at h
    · exact ⟨0, (Except.ok.inj h).symm⟩
    · split at h
      · split at h
        next z hz =>
          obtain ⟨hdrop, -⟩ := find_zip_in_data_some hz
          refine ⟨data.length - z.length, ?_⟩
          rw [hdrop]
          exact (Except.ok.inj h).symm
        next hz => exact absurd h (by simp)
      · split at h
        · split at h
          next m hm => exact absurd h (by simp)
          next off hoff =>
            split at h
            · exact absurd h (by simp)
            · split at h
              · obtain ⟨k, hk⟩ := ih (data.drop off) r h
                refine ⟨k + off, ?_⟩
                rw [hk, List.drop_drop, Nat.add_comm]
              · exact ⟨off, (Except.ok.inj h).symm⟩
        · exact absurd h (by simp)

/-- C9: on every success — through any number of nested-container
recursion steps — the returned bytes are a suffix slice of the input,
so their length never exceeds that of the input; the decoder never
synthesizes or prepends bytes. -/
theorem decode_output_is_suffix (data r : List Nat)
    (h : crx_to_zip data = Except.ok r) :
    (∃ k, r = data.drop k) ∧ r.length ≤ data.length := by
  obtain ⟨k, hk⟩ := crxToZipF_ok_suffix (data.length + 1) data r h
  refine ⟨⟨k, hk⟩, ?_⟩
  rw [hk, List.length_drop]
  omega

/-- Witness for C9 on a scan-fallback input with two bytes of junk. -/
theorem decode_output_is_suffix_witness :
    (∃ k, [80, 75, 3, 4] = ([9, 9, 80, 75, 3, 4] : List Nat).drop k) ∧
      ([80, 75, 3, 4] : List Nat).length ≤
        ([9, 9, 80, 75, 3, 4] : List Nat).length :=
  decode_output_is_suffix [9, 9, 80, 75, 3, 4] [80, 75, 3, 4] (by decide)

/-- C10: every failure surfaces as a single error kind whose message
carries the fixed `ValueError` wrapper text as its head, and — because
the nested-container recursive call sits inside the same `try` block —
an error raised `d` recursion levels deep is wrapped `d + 1` times
(shown on the family of `d`-fold nests of a corrupted 12-byte CRX3
header), so the error kinds are distinguishable only by message text. -/
theorem decode_errors_wrapped :
    (∀ (data : List Nat) (m : String), crx_to_zip data = Except.error m →
      ∃ m0, m = wrapMsg m0) ∧
    (∀ d : Nat, crx_to_zip (nestCrx3 d crx3Hdr) =
      Except.error (iterWrap (d + 1) "CRX file appears to be corrupted")) := by
  constructor
  · intro data m h
    unfold crx_to_zip at h
    rw [crxToZipF_succ, wrapResult_error_iff] at h
    obtain ⟨m0, -, hm⟩ := h
    exact ⟨m0, hm⟩
  · intro d
    induction d with
    | zero => decide
    | succ d ih =>
      have hc : (nestCrx3 d crx3Hdr).take 4 = cr24 := by
        cases d with
        | zero => decide
        | succ d' => exact rfl
      show crx_to_zip (crx3Hdr ++ nestCrx3 d crx3Hdr) =
        Except.error (iterWrap (d + 1 + 1) "CRX file appears to be corrupted")
      rw [crx_to_zip_layer_rec hc, ih]
      rfl

/-- Witness for C10: the wrapper head on the failure for empty input, and
the triple wrapping of the corruption error under a depth-2 nest. -/
theorem decode_errors_wrapped_witness :
    (∃ m0, "Error converting CRX to ZIP: Invalid CRX file: Does not start with Cr24" =
      wrapMsg m0) ∧
    crx_to_zip (nestCrx3 2 crx3Hdr) =
      Except.error (iterWrap 3 "CRX file appears to be corrupted") := by
  constructor
  · exact decode_errors_wrapped.1 [] _ (by decide)
  · exact decode_errors_wrapped.2 2
